import Mathlib

/-!
# Verification of the findcarhome upload pipeline

Shallow embedding of `src/apps/upload/views.py` and `src/apps/upload/models.py`
(Django upload ingestion: validation, MIME classification, image introspection,
thumbnail generation, primary-flag handling, audit log, batch upload), together
with proofs settling the frozen claims about the natural-language specification.

Conventions of the embedding:
* Request parameters that may be absent are `Option String`; Python falsiness of
  an empty string is modelled explicitly where the source relies on it.
* The metadata store, blob store and audit log are one explicit `DB` state.
* `uuid.uuid4()` is modelled by the repository-assigned fresh counter `nextId`
  (the only property ever used is freshness).
* Views that are **not** decorated with `@transaction.atomic` (namely
  `set_primary` and `destroy`) return the list of states committed after each
  individual ORM statement, since each statement autocommits on its own;
  `create` is decorated with `@transaction.atomic` in the source and therefore
  produces a single committed state (or leaves the state untouched on error).
* Fallible external effects (the metadata-store insert inside `create`, the
  row deletion inside `destroy`) carry an explicit success flag on their input,
  modelling the exceptions Django may raise from the store.
-/

namespace FindCarHome

/-- A decodable source image as seen by PIL: its mode string, pixel dimensions,
and whether JPEG encoding of the processed raster succeeds. -/
structure SrcImage where
  mode : String
  width : Nat
  height : Nat
  encodeOk : Bool
deriving Repr, DecidableEq

/-- A seekable input stream handed to `get_image_dimensions` /
`generate_thumbnail`: the decodable image content (`none` when `Image.open`
raises) and the current read position. -/
structure FStream where
  content : Option SrcImage
  pos : Nat
deriving Repr, DecidableEq

/-- Python `str.lower()` on one character, restricted to the ASCII range — the
only range the source ever lowercases (`'is_primary'` values and file
extensions). -/
def lowerChar (c : Char) : Char :=
  if 'A' ≤ c ∧ c ≤ 'Z' then Char.ofNat (c.toNat + 32) else c

/-- Python `str.lower()`. -/
def pyLower (s : String) : String := String.mk (s.toList.map lowerChar)

/-- Python `str.startswith(pre)`. -/
def startswith (s pre : String) : Bool := pre.toList.isPrefixOf s.toList

/-- `UploadViewSet.detect_file_type` (views.py lines 45-53): prefix match on the
MIME string. -/
def detect_file_type (mime_type : String) : String :=
  if startswith mime_type "image/" then "image"
  else if startswith mime_type "video/" then "video"
  else if startswith mime_type "audio/" then "audio"
  else "document"

/-- `UploadViewSet.get_image_dimensions` (views.py lines 55-64): seek to 0, try
to open and read the size, return `(None, None)` on failure; the `finally`
block seeks the stream back to offset 0 on every exit path. -/
def get_image_dimensions (file_obj : FStream) : FStream × (Option Nat × Option Nat) :=
  match file_obj.content with
  | some img => ({ file_obj with pos := 0 }, (some img.width, some img.height))
  | none => ({ file_obj with pos := 0 }, (none, none))

/-- Pillow's `round_aspect` helper inside `Image.thumbnail`: pick whichever of
`floor` and `ceil` minimises `key` (ties go to `floor`, as Python's `min`
returns its first argument), then force the result to be at least 1. -/
def roundAspect (q : ℚ) (key : ℤ → ℚ) : ℤ :=
  max (if key ⌊q⌋ ≤ key ⌈q⌉ then ⌊q⌋ else ⌈q⌉) 1

/-- Pillow's `Image.thumbnail` target-size computation (a dependency of
views.py line 82, `img.thumbnail(size, Image.Resampling.LANCZOS)`): if the
image already fits inside the bounding box it is left untouched, otherwise the
larger relative dimension is clamped to the box and the other is rounded from
the exact aspect-preserving value. -/
def pilThumbnailSize (w h bw bh : Nat) : Nat × Nat :=
  if bw ≥ w ∧ bh ≥ h then (w, h)
  else if (bw : ℚ) / (bh : ℚ) ≥ (w : ℚ) / (h : ℚ) then
    ((roundAspect ((w : ℚ) / (h : ℚ) * (bh : ℚ))
        (fun n => |(w : ℚ) / (h : ℚ) - (n : ℚ) / (bh : ℚ)|)).toNat, bh)
  else
    (bw, (roundAspect ((bw : ℚ) / ((w : ℚ) / (h : ℚ)))
        (fun n => if n = 0 then 0 else |(w : ℚ) / (h : ℚ) - (bw : ℚ) / (n : ℚ)|)).toNat)

/-- The observable description of the JPEG produced by
`UploadViewSet.generate_thumbnail`: encoding parameters, final dimensions, the
raster mode at encode time, and which colour-normalisation path ran
(`whiteBackground`: a white RGB background was created and pasted onto;
`alphaMask`: the paste used the image's alpha band as mask — in the source this
happens only when the image mode is `RGBA` at paste time; `paletteExpanded`:
the source was mode `P` and was first converted to `RGBA`). -/
structure ThumbOutput where
  format : String
  quality : Nat
  optimize : Bool
  width : Nat
  height : Nat
  mode : String
  whiteBackground : Bool
  alphaMask : Bool
  paletteExpanded : Bool
deriving Repr, DecidableEq

/-- `UploadViewSet.generate_thumbnail` (views.py lines 66-92): decode, convert
`RGBA`/`LA`/`P` via a white background paste (`P` is first converted to `RGBA`;
the paste mask is the alpha band only when the pasted image's mode is `RGBA`,
so an `LA` image is pasted without its alpha mask), convert any other non-RGB
mode directly, shrink with `img.thumbnail(size, LANCZOS)`, and save as JPEG
with `quality=75, optimize=True`.  Any decode or encode failure returns `none`;
the `finally` block seeks the input stream back to offset 0 on every exit
path. -/
def generate_thumbnail (file_obj : FStream) (size : Nat × Nat := (400, 300)) :
    FStream × Option ThumbOutput :=
  match file_obj.content with
  | none => ({ file_obj with pos := 0 }, none)
  | some img =>
    let isFlattened := img.mode = "RGBA" || img.mode = "LA" || img.mode = "P"
    let modeAtPaste := if img.mode = "P" then "RGBA" else img.mode
    if img.encodeOk then
      ({ file_obj with pos := 0 },
       some { format := "JPEG", quality := 75, optimize := true,
              width := (pilThumbnailSize img.width img.height size.1 size.2).1,
              height := (pilThumbnailSize img.width img.height size.1 size.2).2,
              mode := "RGB",
              whiteBackground := isFlattened,
              alphaMask := isFlattened && modeAtPaste = "RGBA",
              paletteExpanded := img.mode = "P" })
    else
      ({ file_obj with pos := 0 }, none)

/-! ## Data model (`src/apps/upload/models.py`) -/

/-- A row of the `UploadedFile` table (models.py lines 7-64).  `fileLoc` and
`thumbLoc` are blob-store locators for the `file` and `thumbnail` fields;
`file_name` is the stored name of the `file` field. -/
structure UploadedFileRec where
  id : Nat
  user_uid : String
  listing_type : String
  listing_id : String
  file_type : String
  file_name : String
  fileLoc : Nat
  thumbLoc : Option Nat
  is_primary : Bool
  file_size : Nat
  mime_type : String
  width : Option Nat
  height : Option Nat
  uploaded_at : Nat
deriving Repr, DecidableEq

/-- A row of the `FileUploadLog` table (models.py lines 67-83). -/
structure FileUploadLogRec where
  user_uid : String
  action : String
  file_id : Option Nat
  file_name : String
  file_size : Nat
  ip_address : Option String
  user_agent : String
deriving Repr, DecidableEq

/-- The combined persistent state: metadata rows, append-only audit rows, the
set of locators currently present in the blob store, the repository-assigned
id / locator counters, and a logical clock for `uploaded_at`
(`auto_now_add`). -/
structure DB where
  files : List UploadedFileRec
  logs : List FileUploadLogRec
  blobs : List Nat
  nextId : Nat
  nextLoc : Nat
  clock : Nat
deriving Repr, DecidableEq

def emptyDB : DB :=
  { files := [], logs := [], blobs := [], nextId := 0, nextLoc := 0, clock := 0 }

/-- Well-formedness maintained by the repository: row ids are distinct and
below the id counter. -/
def DB.WF (db : DB) : Prop :=
  (db.files.map (·.id)).Nodup ∧ ∀ r ∈ db.files, r.id < db.nextId

instance (db : DB) : Decidable db.WF := by
  unfold DB.WF; infer_instance

/-! ## Upload payloads and request plumbing -/

/-- An uploaded file object from `request.FILES`: its client-supplied name,
`content_type` (`none` or the empty string are both falsy in the source),
`size`, the decodable image content seen by PIL when the bytes are opened as an
image, and `dbOk`, which models whether the metadata-store insert
(`UploadedFile.objects.create`) for this payload succeeds or raises. -/
structure FilePayload where
  name : String
  content_type : Option String
  size : Nat
  image : Option SrcImage
  dbOk : Bool
deriving Repr, DecidableEq

/-- Python truthiness of a Django file object: `bool(file)` is
`bool(file.name)`. -/
def pyTruthyFile : Option FilePayload → Bool
  | some f => f.name ≠ ""
  | none => false

/-- Python truthiness of an optional string request parameter. -/
def pyTruthyStr : Option String → Bool
  | some s => s ≠ ""
  | none => false

/-- `os.path.splitext(name)[1]`: the extension starting at the last dot,
except that a basename consisting only of leading dots has no extension. -/
def splitextExt (p : String) : String :=
  let cs := p.toList
  let lastDot := (List.range cs.length).foldl
    (fun acc i => if cs.get? i = some '.' then some i else acc) none
  match lastDot with
  | none => ""
  | some i => if (cs.take i).all (· = '.') then "" else String.mk (cs.drop i)

/-- `self.get_queryset()` (views.py lines 31-34) followed by the pk lookup of
`self.get_object()`: the files are filtered to the requesting user's rows and
the target is looked up by primary key; a miss raises `Http404`. -/
def getObject (db : DB) (user_uid : String) (pk : Nat) : Option UploadedFileRec :=
  (db.files.filter (fun r => r.user_uid = user_uid)).find? (fun r => r.id = pk)

/-- The outcome of `UploadViewSet.create`: the 400 responses, the raised
store exception (re-raised after `@transaction.atomic` rolls back; it carries
the mutated `file_obj.name`, since the rename happens before the insert), or
the 201 response with the serialized record. -/
inductive CreateResult where
  | missingFields
  | fileTooLarge (maxSize : Nat)
  | dbError (fileName : String) (message : String)
  | created (rec : UploadedFileRec)
deriving Repr, DecidableEq

/-- `mime_type = file_obj.content_type or 'application/octet-stream'`
(views.py line 111): `None` and the empty string are falsy. -/
def mimeOf (f : FilePayload) : String :=
  match f.content_type with
  | some ct => if ct = "" then "application/octet-stream" else ct
  | none => "application/octet-stream"

/-- `max_size = settings.MAX_UPLOAD_SIZE.get(file_type, 5 * 1024 * 1024)`
(views.py line 115). -/
def maxSizeFor (max_upload_size : String → Option Nat) (f : FilePayload) : Nat :=
  (max_upload_size (detect_file_type (mimeOf f))).getD (5 * 1024 * 1024)

/-- The thumbnail step of `create` (views.py lines 146-151): for an image,
attempt `generate_thumbnail`; on success store the thumbnail blob and update
the row (`uploaded_file.thumbnail.save(..., save=True)`); a `None` thumbnail
is silently skipped. -/
def saveThumbnail (db1 : DB) (rec0 : UploadedFileRec) (f : FilePayload) :
    DB × UploadedFileRec :=
  if rec0.file_type = "image" then
    match (generate_thumbnail ⟨f.image, 0⟩ (400, 300)).2 with
    | some _ =>
      let rec1 := { rec0 with thumbLoc := some db1.nextLoc }
      ({ db1 with
          files := db1.files.map (fun r => if r.id = rec0.id then rec1 else r),
          blobs := db1.blobs ++ [db1.nextLoc],
          nextLoc := db1.nextLoc + 1 }, rec1)
    | none => (db1, rec0)
  else (db1, rec0)

/-- `UploadViewSet.create` (views.py lines 94-165), decorated
`@transaction.atomic`.  Parameters mirror the request: the uploaded file, the
`listing_type` / `listing_id` / `is_primary` POST fields, client ip and user
agent, and `max_upload_size`, the `settings.MAX_UPLOAD_SIZE` mapping.  Returns
the committed state and the response; on a validation failure or a store error
the state is unchanged (nothing was committed). -/
def create (db : DB) (user_uid : String) (file : Option FilePayload)
    (listing_type listing_id is_primary_param : Option String)
    (client_ip : Option String) (user_agent : String)
    (max_upload_size : String → Option Nat) : DB × CreateResult :=
  -- is_primary = str(request.data.get('is_primary', 'false')).lower() == 'true'
  let is_primary := pyLower (is_primary_param.getD "false") = "true"
  -- if not all([file_obj, listing_type, listing_id])
  if ¬ (pyTruthyFile file ∧ pyTruthyStr listing_type ∧ pyTruthyStr listing_id) then
    (db, .missingFields)
  else
    match file, listing_type, listing_id with
    | some f, some lt, some lid =>
      let mime_type := mimeOf f
      let file_type := detect_file_type mime_type
      let max_size := maxSizeFor max_upload_size f
      if f.size > max_size then
        (db, .fileTooLarge max_size)
      else
        -- width, height = self.get_image_dimensions(file_obj) for images
        let dims : Option Nat × Option Nat :=
          if file_type = "image" then (get_image_dimensions ⟨f.image, 0⟩).2
          else (none, none)
        -- unique_filename = f"{uuid.uuid4()}{ext}"; file_obj.name = unique_filename
        let ext := pyLower (splitextExt f.name)
        let unique_filename := "u" ++ toString db.nextId ++ ext
        -- UploadedFile.objects.create(...): may raise, rolling the item back
        if ¬ f.dbOk then
          (db, .dbError unique_filename "database error")
        else
          let rec0 : UploadedFileRec :=
            { id := db.nextId, user_uid := user_uid, listing_type := lt,
              listing_id := lid, file_type := file_type,
              file_name := unique_filename, fileLoc := db.nextLoc,
              thumbLoc := none, is_primary := is_primary, file_size := f.size,
              mime_type := mime_type, width := dims.1, height := dims.2,
              uploaded_at := db.clock }
          let db1 : DB :=
            { db with files := db.files ++ [rec0], blobs := db.blobs ++ [db.nextLoc],
                      nextId := db.nextId + 1, nextLoc := db.nextLoc + 1,
                      clock := db.clock + 1 }
          -- thumbnail for images: uploaded_file.thumbnail.save(..., save=True)
          let p := saveThumbnail db1 rec0 f
          -- FileUploadLog.objects.create(...)
          let logRec : FileUploadLogRec :=
            { user_uid := user_uid, action := "upload", file_id := some rec0.id,
              file_name := unique_filename, file_size := f.size,
              ip_address := client_ip, user_agent := user_agent.take 500 }
          ({ p.1 with logs := p.1.logs ++ [logRec] }, .created p.2)
    | _, _, _ => (db, .missingFields)

/-! ## set_primary, destroy, by_listing, batch_upload -/

/-- Outcome of `UploadViewSet.set_primary`: `Http404` from `get_object`, or the
`{'status': 'updated'}` response. -/
inductive SetPrimaryResult where
  | notFound
  | updated
deriving Repr, DecidableEq

/-- `UploadViewSet.set_primary` (views.py lines 215-231).  The view is **not**
decorated `@transaction.atomic`, so the bulk `update(is_primary=False)` and the
subsequent `uploaded_file.save()` autocommit separately; the returned list
holds the state committed after each statement (the final state is the last
element, and earlier elements are externally observable between the two
statements). -/
def set_primary (db : DB) (user_uid : String) (pk : Nat) :
    List DB × SetPrimaryResult :=
  match getObject db user_uid pk with
  | none => ([], .notFound)
  | some f =>
    -- UploadedFile.objects.filter(listing_type=.., listing_id=.., user_uid=..)
    --   .update(is_primary=False)
    let db1 : DB :=
      { db with files := db.files.map (fun r =>
          if r.listing_type = f.listing_type ∧ r.listing_id = f.listing_id ∧
             r.user_uid = user_uid then
            { r with is_primary := false }
          else r) }
    -- uploaded_file.is_primary = True; uploaded_file.save()
    let db2 : DB :=
      { db1 with files := db1.files.map (fun r =>
          if r.id = f.id then { r with is_primary := true } else r) }
    ([db1, db2], .updated)

/-- The final committed state of `set_primary`. -/
def set_primary_final (db : DB) (user_uid : String) (pk : Nat) : DB :=
  ((set_primary db user_uid pk).1.getLast?).getD db

/-- Outcome of `UploadViewSet.destroy`: `Http404`, the 204 response, or a
store exception raised by `super().destroy()` after the log row already
committed. -/
inductive DestroyResult where
  | notFound
  | noContent
  | dbFailure
deriving Repr, DecidableEq

/-- `UploadViewSet.destroy` (views.py lines 253-268) together with
`UploadedFile.delete` (models.py lines 50-56).  Not decorated
`@transaction.atomic`: the `FileUploadLog.objects.create` commits on its own
before `super().destroy()` runs.  `UploadedFile.delete` removes the `file`
blob when the field is truthy, the `thumbnail` blob when present, then the
row.  `deleteOk` models whether `super().destroy()` succeeds or raises. -/
def destroy (db : DB) (user_uid : String) (pk : Nat)
    (client_ip : Option String) (user_agent : String) (deleteOk : Bool) :
    List DB × DestroyResult :=
  match getObject db user_uid pk with
  | none => ([], .notFound)
  | some inst =>
    let logRec : FileUploadLogRec :=
      { user_uid := user_uid, action := "delete", file_id := some inst.id,
        file_name := if inst.file_name ≠ "" then inst.file_name else "unknown",
        file_size := inst.file_size, ip_address := client_ip,
        user_agent := user_agent.take 500 }
    let db1 : DB := { db with logs := db.logs ++ [logRec] }
    if ¬ deleteOk then ([db1], .dbFailure)
    else
      let blobs1 :=
        if inst.file_name ≠ "" then db1.blobs.filter (fun l => l ≠ inst.fileLoc)
        else db1.blobs
      let blobs2 :=
        match inst.thumbLoc with
        | some t => blobs1.filter (fun l => l ≠ t)
        | none => blobs1
      let db2 : DB :=
        { db1 with blobs := blobs2,
                   files := db1.files.filter (fun r => r.id ≠ inst.id) }
      ([db1, db2], .noContent)

/-- The final committed state of `destroy`. -/
def destroy_final (db : DB) (user_uid : String) (pk : Nat)
    (client_ip : Option String) (user_agent : String) (deleteOk : Bool) : DB :=
  ((destroy db user_uid pk client_ip user_agent deleteOk).1.getLast?).getD db

/-- The comparator realising `order_by('-is_primary', '-uploaded_at')`:
`a` sorts no later than `b`. -/
def listingLE (a b : UploadedFileRec) : Bool :=
  if a.is_primary = b.is_primary then b.uploaded_at ≤ a.uploaded_at
  else a.is_primary

/-- Insert into a `listingLE`-sorted list, after any entries that sort no later. -/
def insertByListing (a : UploadedFileRec) :
    List UploadedFileRec → List UploadedFileRec
  | [] => [a]
  | b :: bs => if listingLE b a then b :: insertByListing a bs else a :: b :: bs

/-- Sorting by `('-is_primary', '-uploaded_at')`. -/
def sortByListing (l : List UploadedFileRec) : List UploadedFileRec :=
  l.foldr insertByListing []

/-- `UploadViewSet.by_listing` (views.py lines 233-251): requires both query
parameters (an empty string is falsy), filters on the listing key — with no
owner filter — and orders by `-is_primary, -uploaded_at`. -/
def by_listing (db : DB) (listing_type listing_id : Option String) :
    Except String (List UploadedFileRec) :=
  if ¬ (pyTruthyStr listing_type ∧ pyTruthyStr listing_id) then
    .error "Missing listing_type or listing_id"
  else
    match listing_type, listing_id with
    | some lt, some lid =>
      .ok (sortByListing (db.files.filter
        (fun r => r.listing_type = lt ∧ r.listing_id = lid)))
    | _, _ => .error "Missing listing_type or listing_id"

/-- One entry of the batch `errors` list: `{'file': ..., 'error': ...}`. -/
structure BatchError where
  file : String
  error : String
deriving Repr, DecidableEq

/-- The batch response body: success / failure counts, the serialized
successful records, and the per-file errors. -/
structure BatchResult where
  success : Nat
  failed : Nat
  results : List UploadedFileRec
  errors : List BatchError
deriving Repr, DecidableEq

/-- `response.data.get('error', 'Unknown error')` for a non-201 response of
`create`, as read by `batch_upload`. -/
def createErrorMessage : CreateResult → String
  | .missingFields => "Missing required fields: file, listing_type, listing_id"
  | .fileTooLarge m => "File too large. Max size: " ++ toString (m / (1024 * 1024)) ++ "MB"
  | .dbError _ msg => msg
  | .created _ => "Unknown error"

/-- The loop body of `UploadViewSet.batch_upload` (views.py lines 183-206):
each file is pushed through `self.create` with the shared `listing_type` /
`listing_id` and `is_primary = str(index == 0).lower()`; a 201 appends to
`results`, any other response or exception appends `{'file': file_obj.name,
'error': ...}` to `errors` (after a store exception the shared file object was
already renamed). -/
def batchGo (user_uid : String) (listing_type listing_id : Option String)
    (client_ip : Option String) (user_agent : String)
    (max_upload_size : String → Option Nat) :
    DB → Nat → List FilePayload → DB × List UploadedFileRec × List BatchError
  | db, _, [] => (db, [], [])
  | db, index, f :: rest =>
    let isP := if index = 0 then "true" else "false"
    let res := create db user_uid (some f) listing_type listing_id
      (some isP) client_ip user_agent max_upload_size
    let t := batchGo user_uid listing_type listing_id client_ip
      user_agent max_upload_size res.1 (index + 1) rest
    match res.2 with
    | .created rec => (t.1, rec :: t.2.1, t.2.2)
    | .dbError nm msg => (t.1, t.2.1, { file := nm, error := msg } :: t.2.2)
    | other => (t.1, t.2.1, { file := f.name, error := createErrorMessage other } :: t.2.2)

/-- `UploadViewSet.batch_upload` (views.py lines 167-213): reject an empty
file list, otherwise run the single-file pipeline per file in submission order
and report `{'success': len(results), 'failed': len(errors), ...}`. -/
def batch_upload (db : DB) (user_uid : String) (files : List FilePayload)
    (listing_type listing_id : Option String) (client_ip : Option String)
    (user_agent : String) (max_upload_size : String → Option Nat) :
    DB × Except String BatchResult :=
  if files = [] then (db, .error "No files provided")
  else
    let t := batchGo user_uid listing_type listing_id client_ip
      user_agent max_upload_size db 0 files
    (t.1, .ok { success := t.2.1.length, failed := t.2.2.length,
                results := t.2.1, errors := t.2.2 })

/-! ## Committed operation sequences (for the primary-flag invariant) -/

/-- One fully-committed client operation of the kinds named by invariant I1. -/
inductive Op where
  | createOp (user_uid : String) (file : Option FilePayload)
      (listing_type listing_id is_primary_param : Option String)
  | setPrimaryOp (user_uid : String) (pk : Nat)
deriving Repr

/-- The committed effect of one operation on the store. -/
def applyOp (max_upload_size : String → Option Nat) (db : DB) : Op → DB
  | .createOp uid f lt lid isP => (create db uid f lt lid isP none "" max_upload_size).1
  | .setPrimaryOp uid pk => set_primary_final db uid pk

/-- Run a sequence of operations to completion. -/
def runOps (max_upload_size : String → Option Nat) (db : DB) (ops : List Op) : DB :=
  ops.foldl (applyOp max_upload_size) db

/-- Whether an operation is a `create` that explicitly requests
`is_primary=true` (the parse the source applies to the raw parameter). -/
def opRequestsPrimary : Op → Bool
  | .createOp _ _ _ _ isP => pyLower (isP.getD "false") = "true"
  | .setPrimaryOp _ _ => false

/-- The number of rows of a listing key `(listing_type, listing_id, user_uid)`
currently flagged primary. -/
def primaryCount (db : DB) (lt lid uid : String) : Nat :=
  db.files.countP (fun r =>
    r.listing_type = lt ∧ r.listing_id = lid ∧ r.user_uid = uid ∧ r.is_primary)

/-- Invariant I1: every listing key has at most one primary file. -/
def InvariantI1 (db : DB) : Prop :=
  ∀ lt lid uid, primaryCount db lt lid uid ≤ 1

/-! ## Concrete fixtures for the scenario theorems -/

/-- A small document payload (classified `document`, no image content). -/
def samplePdf (nm : String) (sz : Nat) : FilePayload :=
  { name := nm, content_type := some "application/pdf", size := sz,
    image := none, dbOk := true }

/-- `settings.MAX_UPLOAD_SIZE` with no type configured: every lookup falls
back to the 5 MiB default. -/
def noSizeConfig : String → Option Nat := fun _ => none

/-- Fixture: an image row of listing `car/C9` owned by `"u"`, currently the
primary, with both a file blob and a thumbnail blob. -/
def carRecA : UploadedFileRec :=
  { id := 1, user_uid := "u", listing_type := "car", listing_id := "C9",
    file_type := "image", file_name := "ua.jpg", fileLoc := 10,
    thumbLoc := some 11, is_primary := true, file_size := 50,
    mime_type := "image/jpeg", width := some 20, height := some 10,
    uploaded_at := 0 }

/-- Fixture: a second row of the same listing key, not primary. -/
def carRecB : UploadedFileRec :=
  { carRecA with id := 2, file_name := "ub.jpg", fileLoc := 12, thumbLoc := none,
                 is_primary := false, uploaded_at := 1 }

/-- Fixture: a store holding exactly `carRecA` (primary) and `carRecB`. -/
def dbAB : DB :=
  { files := [carRecA, carRecB], logs := [], blobs := [10, 11, 12],
    nextId := 3, nextLoc := 13, clock := 2 }

/-- Fixture: an image payload whose size exceeds the default 5 MiB image
cap. -/
def bigImage : FilePayload :=
  { name := "big.jpg", content_type := some "image/jpeg",
    size := 5 * 1024 * 1024 + 1, image := none, dbOk := true }

/-- Fixture: a 200-character listing id, exceeding the model's 128-character
bound. -/
def longListingId : String := String.mk (List.replicate 200 'x')

/-- Fixture: a batch of five documents in which only the file at submission
index 2 is oversized (6 MiB against the 5 MiB default cap). -/
def batchFive : List FilePayload :=
  [samplePdf "f0.pdf" 100, samplePdf "f1.pdf" 100,
   samplePdf "f2.pdf" (6 * 1024 * 1024), samplePdf "f3.pdf" 100,
   samplePdf "f4.pdf" 100]

/-- The error entry `batch_upload` records for the oversized `f2.pdf`. -/
def tooLargeErr : BatchError :=
  { file := "f2.pdf", error := "File too large. Max size: 5MB" }

/-! ## Helper lemmas: thumbnail size computation -/

theorem one_le_roundAspect (q : ℚ) (key : ℤ → ℚ) : 1 ≤ roundAspect q key :=
  le_max_right _ _

theorem roundAspect_le (q : ℚ) (key : ℤ → ℚ) (n : ℤ) (hq : q ≤ (n : ℚ)) (hn : 1 ≤ n) :
    roundAspect q key ≤ n := by
  have hc : ⌈q⌉ ≤ n := Int.ceil_le.mpr hq
  unfold roundAspect
  apply max_le _ hn
  split
  · exact (Int.floor_le_ceil q).trans hc
  · exact hc

theorem abs_roundAspect_sub_lt (q : ℚ) (key : ℤ → ℚ) (hq : 0 < q) :
    |((roundAspect q key : ℤ) : ℚ) - q| < 1 := by
  have h1 : q - 1 < ((if key ⌊q⌋ ≤ key ⌈q⌉ then ⌊q⌋ else ⌈q⌉ : ℤ) : ℚ) := by
    split
    · exact Int.sub_one_lt_floor q
    · have := Int.le_ceil q; linarith
  have h2 : ((if key ⌊q⌋ ≤ key ⌈q⌉ then ⌊q⌋ else ⌈q⌉ : ℤ) : ℚ) < q + 1 := by
    split
    · have := Int.floor_le q; linarith
    · exact Int.ceil_lt_add_one q
  have hcast : ((roundAspect q key : ℤ) : ℚ) =
      max ((if key ⌊q⌋ ≤ key ⌈q⌉ then ⌊q⌋ else ⌈q⌉ : ℤ) : ℚ) 1 := by
    unfold roundAspect; push_cast; ring_nf
  rw [abs_sub_lt_iff, hcast]
  constructor
  · apply sub_lt_iff_lt_add.mpr
    apply max_lt
    · linarith
    · linarith
  · have hle := le_max_left ((if key ⌊q⌋ ≤ key ⌈q⌉ then ⌊q⌋ else ⌈q⌉ : ℤ) : ℚ) (1 : ℚ)
    linarith

theorem roundAspect_toNat_le (q : ℚ) (key : ℤ → ℚ) (n : ℕ) (hq : q ≤ (n : ℚ)) (hn : 1 ≤ n) :
    (roundAspect q key).toNat ≤ n := by
  apply Int.toNat_le.mpr
  apply roundAspect_le q key n (by exact_mod_cast hq) (by exact_mod_cast hn)

theorem roundAspect_toNat_cast (q : ℚ) (key : ℤ → ℚ) :
    (((roundAspect q key).toNat : ℕ) : ℚ) = ((roundAspect q key : ℤ) : ℚ) := by
  exact_mod_cast Int.toNat_of_nonneg (le_trans (by norm_num) (one_le_roundAspect q key))

theorem pilThumbnailSize_le (w h : Nat) (hw : 1 ≤ w) (hh : 1 ≤ h) :
    (pilThumbnailSize w h 400 300).1 ≤ 400 ∧ (pilThumbnailSize w h 400 300).2 ≤ 300 := by
  have hwQ : (0 : ℚ) < (w : ℚ) := by exact_mod_cast hw
  have hhQ : (0 : ℚ) < (h : ℚ) := by exact_mod_cast hh
  have haspect : (0 : ℚ) < (w : ℚ) / (h : ℚ) := div_pos hwQ hhQ
  unfold pilThumbnailSize
  split
  · rename_i hfit
    exact ⟨hfit.1, hfit.2⟩
  split
  · rename_i hbr
    refine ⟨?_, by simp⟩
    simp only [Prod.fst]
    apply roundAspect_toNat_le _ _ 400 _ (by norm_num)
    have h300 : ((300 : ℕ) : ℚ) = (300 : ℚ) := by norm_num
    have h400 : ((400 : ℕ) : ℚ) = (400 : ℚ) := by norm_num
    rw [h300, h400]
    have hbr' : (w : ℚ) / (h : ℚ) ≤ (400 : ℚ) / 300 := by
      rw [← h400, ← h300]; exact hbr
    calc (w : ℚ) / (h : ℚ) * 300 ≤ (400 : ℚ) / 300 * 300 :=
          mul_le_mul_of_nonneg_right hbr' (by norm_num)
      _ = 400 := by norm_num
  · rename_i hbr
    refine ⟨by simp, ?_⟩
    simp only [Prod.snd]
    apply roundAspect_toNat_le _ _ 300 _ (by norm_num)
    have hlt : (400 : ℚ) / 300 < (w : ℚ) / (h : ℚ) := by
      have := lt_of_not_le hbr
      push_cast at this ⊢
      exact this
    rw [div_le_iff₀ haspect]
    push_cast
    calc (400 : ℚ) = 400 / 300 * 300 := by norm_num
      _ ≤ (w : ℚ) / (h : ℚ) * 300 :=
          mul_le_mul_of_nonneg_right (le_of_lt hlt) (by norm_num)
      _ = 300 * ((w : ℚ) / (h : ℚ)) := by ring

theorem pilThumbnailSize_aspect (w h : Nat) (hw : 1 ≤ w) (hh : 1 ≤ h) :
    |((pilThumbnailSize w h 400 300).1 : ℚ) * (h : ℚ) -
      (w : ℚ) * ((pilThumbnailSize w h 400 300).2 : ℚ)| < max (w : ℚ) (h : ℚ) := by
  have hwQ : (0 : ℚ) < (w : ℚ) := by exact_mod_cast hw
  have hhQ : (0 : ℚ) < (h : ℚ) := by exact_mod_cast hh
  have haspect : (0 : ℚ) < (w : ℚ) / (h : ℚ) := div_pos hwQ hhQ
  unfold pilThumbnailSize
  split
  · simp only [Prod.fst, Prod.snd]
    rw [sub_self, abs_zero]
    exact lt_max_of_lt_left hwQ
  split
  · -- x = roundAspect (aspect * 300), result (x.toNat, 300)
    simp only [Prod.fst, Prod.snd]
    rw [roundAspect_toNat_cast]
    set q : ℚ := (w : ℚ) / (h : ℚ) * ((300 : ℕ) : ℚ) with hqdef
    set key := fun n : ℤ => |(w : ℚ) / (h : ℚ) - (n : ℚ) / ((300 : ℕ) : ℚ)| with hkey
    have hq0 : 0 < q := by rw [hqdef]; positivity
    have habs := abs_roundAspect_sub_lt q key hq0
    have hexpand : ((roundAspect q key : ℤ) : ℚ) * (h : ℚ) - (w : ℚ) * ((300 : ℕ) : ℚ) =
        (((roundAspect q key : ℤ) : ℚ) - q) * (h : ℚ) := by
      rw [hqdef]
      field_simp
    rw [hexpand, abs_mul, abs_of_pos hhQ]
    calc |((roundAspect q key : ℤ) : ℚ) - q| * (h : ℚ) < 1 * (h : ℚ) :=
          mul_lt_mul_of_pos_right habs hhQ
      _ = (h : ℚ) := one_mul _
      _ ≤ max (w : ℚ) (h : ℚ) := le_max_right _ _
  · -- y = roundAspect (400 / aspect), result (400, y.toNat)
    simp only [Prod.fst, Prod.snd]
    rw [roundAspect_toNat_cast]
    set q : ℚ := ((400 : ℕ) : ℚ) / ((w : ℚ) / (h : ℚ)) with hqdef
    set key := fun n : ℤ =>
      if n = 0 then (0 : ℚ) else |(w : ℚ) / (h : ℚ) - ((400 : ℕ) : ℚ) / (n : ℚ)| with hkey
    have hq0 : 0 < q := by rw [hqdef]; positivity
    have habs := abs_roundAspect_sub_lt q key hq0
    have hexpand : ((400 : ℕ) : ℚ) * (h : ℚ) - (w : ℚ) * ((roundAspect q key : ℤ) : ℚ) =
        (q - ((roundAspect q key : ℤ) : ℚ)) * (w : ℚ) := by
      rw [hqdef]
      field_simp
    rw [hexpand, abs_mul, abs_of_pos hwQ, abs_sub_comm]
    calc |((roundAspect q key : ℤ) : ℚ) - q| * (w : ℚ) < 1 * (w : ℚ) :=
          mul_lt_mul_of_pos_right habs hwQ
      _ = (w : ℚ) := one_mul _
      _ ≤ max (w : ℚ) (h : ℚ) := le_max_left _ _

theorem pil_2000_1500 : pilThumbnailSize 2000 1500 400 300 = (400, 300) := by
  unfold pilThumbnailSize roundAspect
  norm_num
  decide

/-! ## C8: stream position restoration -/

/-- C8 (corrected): `get_image_dimensions` and `generate_thumbnail` do restore
the stream deterministically on every exit path, but to offset 0 (`seek(0)` in
the `finally` blocks), not to the arbitrary pre-call offset; the content is
untouched.  The contract claimed by the spec holds only for a pre-call offset
of 0. -/
theorem C8_stream_position_reset (f : FStream) (size : Nat × Nat) :
    (get_image_dimensions f).1.pos = 0 ∧ (get_image_dimensions f).1.content = f.content ∧
    (generate_thumbnail f size).1.pos = 0 ∧ (generate_thumbnail f size).1.content = f.content := by
  cases hc : f.content with
  | none => simp [get_image_dimensions, generate_thumbnail, hc]
  | some img =>
    cases he : img.encodeOk <;>
      simp [get_image_dimensions, generate_thumbnail, hc, he]

/-- C8 counterexample: for a stream whose pre-call read position is 7, both
calls leave the position at 0 ≠ 7, on a successful-decode exit path
(`get_image_dimensions` of a decodable image) as well as on a decode-failure
exit path (`generate_thumbnail` of undecodable content).  This refutes "the
read position after the call equals its pre-call offset, whatever that offset
was". -/
theorem C8_counterexample :
    (get_image_dimensions
        ⟨some { mode := "RGB", width := 10, height := 10, encodeOk := true }, 7⟩).1.pos ≠
      (FStream.mk (some { mode := "RGB", width := 10, height := 10, encodeOk := true }) 7).pos ∧
    (generate_thumbnail ⟨none, 7⟩ (400, 300)).1.pos ≠ (FStream.mk none 7).pos := by
  decide

/-! ## C9: thumbnail generation -/

/-- C9 (corrected): for every decodable source image with positive dimensions
whose JPEG encode succeeds, `generate_thumbnail` returns a JPEG at quality 75
with size-optimizing encoding, dimensions inside the 400×300 box, and aspect
ratio preserved within rounding tolerance; `RGBA`/`LA`/`P` sources are pasted
onto an opaque white background and `P` sources are first expanded to `RGBA`;
however the paste uses the alpha band as mask only for `RGBA` and `P` sources —
an `LA` source (which carries an alpha channel) is pasted without its alpha
mask, so its alpha is discarded rather than flattened.  Decode or encode
failures return `none`.  Concretely, a 2000×1500 RGB source yields a 400×300
JPEG. -/
theorem C9_thumbnail_generation :
    (∀ (f : FStream) (img : SrcImage), f.content = some img → 1 ≤ img.width →
      1 ≤ img.height → img.encodeOk = true →
      ∃ out, (generate_thumbnail f (400, 300)).2 = some out ∧
        out.format = "JPEG" ∧ out.quality = 75 ∧ out.optimize = true ∧ out.mode = "RGB" ∧
        out.width ≤ 400 ∧ out.height ≤ 300 ∧
        |(out.width : ℚ) * (img.height : ℚ) - (img.width : ℚ) * (out.height : ℚ)| <
          max (img.width : ℚ) (img.height : ℚ) ∧
        (out.whiteBackground = true ↔ (img.mode = "RGBA" ∨ img.mode = "LA" ∨ img.mode = "P")) ∧
        (out.paletteExpanded = true ↔ img.mode = "P") ∧
        (out.alphaMask = true ↔ (img.mode = "RGBA" ∨ img.mode = "P"))) ∧
    (∀ (f : FStream) (img : SrcImage), f.content = some img → img.encodeOk = false →
      (generate_thumbnail f (400, 300)).2 = none) ∧
    (∀ f : FStream, f.content = none → (generate_thumbnail f (400, 300)).2 = none) ∧
    (generate_thumbnail
        ⟨some { mode := "RGB", width := 2000, height := 1500, encodeOk := true }, 0⟩
        (400, 300)).2 =
      some { format := "JPEG", quality := 75, optimize := true, width := 400, height := 300,
             mode := "RGB", whiteBackground := false, alphaMask := false,
             paletteExpanded := false } := by
  refine ⟨?_, ?_, ?_, ?_⟩
  · intro f img hc hw hh he
    obtain ⟨c, p⟩ := f
    simp only at hc
    subst hc
    obtain ⟨mode, w, h, eok⟩ := img
    simp only at hw hh he
    subst he
    refine ⟨_, rfl, rfl, rfl, rfl, rfl, ?_, ?_, ?_, ?_, ?_, ?_⟩
    · exact (pilThumbnailSize_le w h hw hh).1
    · exact (pilThumbnailSize_le w h hw hh).2
    · exact pilThumbnailSize_aspect w h hw hh
    · simp [or_assoc]
    · simp
    · by_cases h1 : mode = "RGBA" <;> by_cases h2 : mode = "LA" <;>
        by_cases h3 : mode = "P" <;> simp_all
  · intro f img hc he
    simp [generate_thumbnail, hc, he]
  · intro f hc
    simp [generate_thumbnail, hc]
  · simp only [generate_thumbnail, pil_2000_1500]
    norm_num
    decide

/-- Witness for C9: the universally quantified clause applied to a 2000×1500
palette-mode (`P`) source at stream offset 5. -/
theorem C9_witness :
    ∃ out, (generate_thumbnail
        ⟨some { mode := "P", width := 2000, height := 1500, encodeOk := true }, 5⟩
        (400, 300)).2 = some out ∧
      out.format = "JPEG" ∧ out.quality = 75 ∧ out.optimize = true ∧ out.mode = "RGB" ∧
      out.width ≤ 400 ∧ out.height ≤ 300 ∧
      |(out.width : ℚ) * ((1500 : ℕ) : ℚ) - ((2000 : ℕ) : ℚ) * (out.height : ℚ)| <
        max ((2000 : ℕ) : ℚ) ((1500 : ℕ) : ℚ) ∧
      (out.whiteBackground = true ↔
        (("P" : String) = "RGBA" ∨ ("P" : String) = "LA" ∨ ("P" : String) = "P")) ∧
      (out.paletteExpanded = true ↔ ("P" : String) = "P") ∧
      (out.alphaMask = true ↔ (("P" : String) = "RGBA" ∨ ("P" : String) = "P")) :=
  C9_thumbnail_generation.1
    ⟨some { mode := "P", width := 2000, height := 1500, encodeOk := true }, 5⟩
    { mode := "P", width := 2000, height := 1500, encodeOk := true }
    rfl (by norm_num) (by norm_num) rfl

/-- C9 counterexample: an `LA` source (luminance + alpha, hence "carrying an
alpha channel") of size 2000×1500 is thumbnailed, a white background is
created and pasted onto, but the paste uses **no** alpha mask
(`mask = img.split()[-1] if img.mode == 'RGBA' else None` — the mode is `LA`),
so the source's alpha channel is not flattened against the white background as
the claim states for every alpha-carrying source. -/
theorem C9_counterexample :
    ∃ out, (generate_thumbnail
        ⟨some { mode := "LA", width := 2000, height := 1500, encodeOk := true }, 0⟩
        (400, 300)).2 = some out ∧
      out.whiteBackground = true ∧ out.alphaMask = false :=
  ⟨_, rfl, by decide, by decide⟩

/-! ## Helper lemmas: the create pipeline -/

theorem create_missing (db : DB) (uid : String) (file : Option FilePayload)
    (lt lid isP : Option String) (ip : Option String) (ua : String)
    (cfg : String → Option Nat)
    (h : ¬ (pyTruthyFile file ∧ pyTruthyStr lt ∧ pyTruthyStr lid)) :
    create db uid file lt lid isP ip ua cfg = (db, .missingFields) := by
  unfold create
  rw [if_pos h]

theorem create_tooLarge (db : DB) (uid : String) (f : FilePayload)
    (l_t l_d : String) (isP : Option String) (ip : Option String) (ua : String)
    (cfg : String → Option Nat)
    (hname : f.name ≠ "") (hlt : l_t ≠ "") (hld : l_d ≠ "")
    (hsize : maxSizeFor cfg f < f.size) :
    create db uid (some f) (some l_t) (some l_d) isP ip ua cfg =
      (db, .fileTooLarge (maxSizeFor cfg f)) := by
  have htruthy : (pyTruthyFile (some f) ∧ pyTruthyStr (some l_t) ∧
      pyTruthyStr (some l_d)) := by
    simp [pyTruthyFile, pyTruthyStr, hname, hlt, hld]
  unfold create
  rw [if_neg (not_not_intro htruthy)]
  dsimp only
  rw [if_pos hsize]

theorem map_fresh_id (l : List UploadedFileRec) (n : Nat) (rec1 : UploadedFileRec)
    (hl : ∀ r ∈ l, r.id < n) :
    l.map (fun r => if r.id = n then rec1 else r) = l := by
  induction l with
  | nil => rfl
  | cons a as ih =>
    simp only [List.map_cons]
    rw [if_neg (Nat.ne_of_lt (hl a (List.mem_cons_self a as)))]
    rw [ih (fun r hr => hl r (List.mem_cons_of_mem a hr))]

theorem saveThumbnail_cases (db1 : DB) (rec0 : UploadedFileRec) (f : FilePayload) :
    saveThumbnail db1 rec0 f = (db1, rec0) ∨
    saveThumbnail db1 rec0 f =
      ({ db1 with
          files := db1.files.map (fun r =>
            if r.id = rec0.id then { rec0 with thumbLoc := some db1.nextLoc } else r),
          blobs := db1.blobs ++ [db1.nextLoc],
          nextLoc := db1.nextLoc + 1 },
        { rec0 with thumbLoc := some db1.nextLoc }) := by
  unfold saveThumbnail
  split
  · split
    · exact Or.inr rfl
    · exact Or.inl rfl
  · exact Or.inl rfl

theorem create_cases (db : DB) (uid : String) (file : Option FilePayload)
    (lt lid isP : Option String) (ip : Option String) (ua : String)
    (cfg : String → Option Nat) (hWF : db.WF) :
    ((create db uid file lt lid isP ip ua cfg).1 = db ∧
      ∀ rec, (create db uid file lt lid isP ip ua cfg).2 ≠ .created rec) ∨
    (∃ rec, (create db uid file lt lid isP ip ua cfg).2 = .created rec ∧
      (create db uid file lt lid isP ip ua cfg).1.files = db.files ++ [rec] ∧
      (create db uid file lt lid isP ip ua cfg).1.nextId = db.nextId + 1 ∧
      rec.id = db.nextId ∧ rec.user_uid = uid ∧
      rec.is_primary = decide (pyLower (isP.getD "false") = "true") ∧
      some rec.listing_type = lt ∧ some rec.listing_id = lid) := by
  unfold create
  dsimp only
  split
  · exact Or.inl ⟨rfl, fun rec h => nomatch h⟩
  split
  · rename_i fp plt plid hnn
    split
    · exact Or.inl ⟨rfl, fun rec h => nomatch h⟩
    split
    · exact Or.inl ⟨rfl, fun rec h => nomatch h⟩
    · -- success path
      right
      obtain h | h := saveThumbnail_cases _ _ fp
      · rw [h]
        exact ⟨_, rfl, rfl, rfl, rfl, rfl, rfl, rfl, rfl⟩
      · rw [h]
        refine ⟨_, rfl, ?_, rfl, rfl, rfl, rfl, rfl, rfl⟩
        show (List.map _ (db.files ++ [_]) : List UploadedFileRec) = _
        rw [List.map_append]
        congr 1
        · exact map_fresh_id db.files _ _ hWF.2
        · simp
  · exact Or.inl ⟨rfl, fun rec h => nomatch h⟩

theorem create_WF (db : DB) (uid : String) (file : Option FilePayload)
    (lt lid isP : Option String) (ip : Option String) (ua : String)
    (cfg : String → Option Nat) (hWF : db.WF) :
    ((create db uid file lt lid isP ip ua cfg).1).WF := by
  obtain ⟨herr, _⟩ | ⟨rec, _, hfiles, hnext, hid, _⟩ :=
    create_cases db uid file lt lid isP ip ua cfg hWF
  · rw [herr]; exact hWF
  · constructor
    · rw [hfiles, List.map_append]
      rw [List.nodup_append]
      refine ⟨hWF.1, by simp, ?_⟩
      intro x hx
      simp only [List.map_cons, List.map_nil, List.mem_singleton]
      intro hxeq
      obtain ⟨r, hr, hrid⟩ := List.mem_map.mp hx
      have := hWF.2 r hr
      omega
    · intro r hr
      rw [hfiles] at hr
      rw [hnext]
      rcases List.mem_append.mp hr with h | h
      · have := hWF.2 r h; omega
      · simp only [List.mem_singleton] at h
        subst h
        omega

theorem create_mono (db : DB) (uid : String) (file : Option FilePayload)
    (lt lid isP : Option String) (ip : Option String) (ua : String)
    (cfg : String → Option Nat) (hWF : db.WF) :
    ∀ r ∈ db.files, r ∈ (create db uid file lt lid isP ip ua cfg).1.files := by
  obtain ⟨herr, _⟩ | ⟨rec, _, hfiles, _⟩ :=
    create_cases db uid file lt lid isP ip ua cfg hWF
  · rw [herr]; exact fun r hr => hr
  · rw [hfiles]; exact fun r hr => List.mem_append_left _ hr

theorem create_primaryCount (db : DB) (uid : String) (file : Option FilePayload)
    (lt lid isP : Option String) (ip : Option String) (ua : String)
    (cfg : String → Option Nat) (hWF : db.WF)
    (hisP : pyLower (isP.getD "false") ≠ "true") (l_t l_d u : String) :
    primaryCount ((create db uid file lt lid isP ip ua cfg).1) l_t l_d u =
      primaryCount db l_t l_d u := by
  obtain ⟨herr, _⟩ | ⟨rec, _, hfiles, _, _, _, hprim, _⟩ :=
    create_cases db uid file lt lid isP ip ua cfg hWF
  · rw [herr]
  · unfold primaryCount
    rw [hfiles, List.countP_append]
    have hfalse : rec.is_primary = false := by
      rw [hprim]; simpa using hisP
    simp [List.countP_cons, hfalse]

theorem create_created (db : DB) (uid : String) (f : FilePayload)
    (l_t l_d : String) (isP : Option String) (ip : Option String) (ua : String)
    (cfg : String → Option Nat) (hWF : db.WF)
    (hname : f.name ≠ "") (hlt : l_t ≠ "") (hld : l_d ≠ "")
    (hsize : f.size ≤ maxSizeFor cfg f) (hdb : f.dbOk = true) :
    ∃ rec, (create db uid (some f) (some l_t) (some l_d) isP ip ua cfg).2 = .created rec ∧
      (create db uid (some f) (some l_t) (some l_d) isP ip ua cfg).1.files =
        db.files ++ [rec] ∧
      rec.id = db.nextId ∧ rec.user_uid = uid ∧ rec.listing_type = l_t ∧
      rec.listing_id = l_d ∧
      rec.is_primary = decide (pyLower (isP.getD "false") = "true") ∧
      rec.file_size = f.size := by
  have htruthy : (pyTruthyFile (some f) ∧ pyTruthyStr (some l_t) ∧
      pyTruthyStr (some l_d)) := by
    simp [pyTruthyFile, pyTruthyStr, hname, hlt, hld]
  unfold create
  rw [if_neg (not_not_intro htruthy)]
  dsimp only
  rw [if_neg (not_lt.mpr hsize)]
  rw [if_neg (by simp [hdb])]
  obtain h | h := saveThumbnail_cases _ _ f
  · rw [h]
    exact ⟨_, rfl, rfl, rfl, rfl, rfl, rfl, rfl, rfl⟩
  · rw [h]
    refine ⟨_, rfl, ?_, rfl, rfl, rfl, rfl, rfl, rfl⟩
    show (List.map _ (db.files ++ [_]) : List UploadedFileRec) = _
    rw [List.map_append]
    congr 1
    · exact map_fresh_id db.files _ _ hWF.2
    · simp

/-! ## Helper lemmas: object lookup and set_primary -/

theorem getObject_spec (db : DB) (uid : String) (pk : Nat) (f : UploadedFileRec)
    (h : getObject db uid pk = some f) :
    f ∈ db.files ∧ f.user_uid = uid ∧ f.id = pk := by
  unfold getObject at h
  have hmem := List.mem_of_find?_eq_some h
  have hpred := List.find?_some h
  rw [List.mem_filter] at hmem
  exact ⟨hmem.1, by simpa using hmem.2, by simpa using hpred⟩

theorem getObject_none (db : DB) (uid : String) (pk : Nat)
    (h : ∀ r ∈ db.files, r.id = pk → r.user_uid ≠ uid) :
    getObject db uid pk = none := by
  unfold getObject
  rw [List.find?_eq_none]
  intro x hx
  rw [List.mem_filter] at hx
  have hu : x.user_uid = uid := by simpa using hx.2
  intro hpk
  exact absurd hu (h x hx.1 (by simpa using hpk))

/-- The per-row effect of a committed `set_primary` targeting row `f` on behalf
of `uid`: the target row becomes primary, every other row of the same
`(listing_type, listing_id, user_uid)` key is cleared, all other rows are
untouched.  Proved below to equal the clear-then-save composition of the
source. -/
def spFun (uid : String) (f : UploadedFileRec) (r : UploadedFileRec) : UploadedFileRec :=
  if r.id = f.id then { r with is_primary := true }
  else if r.listing_type = f.listing_type ∧ r.listing_id = f.listing_id ∧
      r.user_uid = uid then { r with is_primary := false }
  else r

theorem spFun_id_eq (uid : String) (f r : UploadedFileRec) : (spFun uid f r).id = r.id := by
  unfold spFun
  split_ifs <;> rfl

theorem spFun_eq_target (uid : String) (f r : UploadedFileRec) (hid : r.id = f.id) :
    spFun uid f r = { r with is_primary := true } := by
  unfold spFun
  rw [if_pos hid]

theorem spFun_eq_cleared (uid : String) (f r : UploadedFileRec) (hid : ¬ r.id = f.id)
    (hkey : r.listing_type = f.listing_type ∧ r.listing_id = f.listing_id ∧
      r.user_uid = uid) :
    spFun uid f r = { r with is_primary := false } := by
  unfold spFun
  rw [if_neg hid, if_pos hkey]

theorem spFun_eq_same (uid : String) (f r : UploadedFileRec) (hid : ¬ r.id = f.id)
    (hkey : ¬ (r.listing_type = f.listing_type ∧ r.listing_id = f.listing_id ∧
      r.user_uid = uid)) :
    spFun uid f r = r := by
  unfold spFun
  rw [if_neg hid, if_neg hkey]

theorem set_primary_final_notFound (db : DB) (uid : String) (pk : Nat)
    (h : getObject db uid pk = none) : set_primary_final db uid pk = db := by
  unfold set_primary_final set_primary
  rw [h]
  rfl

theorem set_primary_final_found (db : DB) (uid : String) (pk : Nat)
    (f : UploadedFileRec) (h : getObject db uid pk = some f) :
    set_primary_final db uid pk = { db with files := db.files.map (spFun uid f) } := by
  unfold set_primary_final set_primary
  rw [h]
  show { db with files := (db.files.map _).map _ } =
    { db with files := db.files.map (spFun uid f) }
  congr 1
  rw [List.map_map]
  apply List.map_congr_left
  intro r _
  simp only [Function.comp]
  by_cases hid : r.id = f.id <;>
    by_cases hkey : r.listing_type = f.listing_type ∧ r.listing_id = f.listing_id ∧
      r.user_uid = uid <;>
    simp [spFun, hid, hkey]

theorem set_primary_final_WF (db : DB) (uid : String) (pk : Nat) (hWF : db.WF) :
    (set_primary_final db uid pk).WF := by
  cases hobj : getObject db uid pk with
  | none => rw [set_primary_final_notFound db uid pk hobj]; exact hWF
  | some f =>
    rw [set_primary_final_found db uid pk f hobj]
    constructor
    · have hids : (db.files.map (spFun uid f)).map (·.id) = db.files.map (·.id) := by
        rw [List.map_map]
        exact List.map_congr_left (fun r _ => spFun_id_eq uid f r)
      show ((db.files.map (spFun uid f)).map (·.id)).Nodup
      rw [hids]
      exact hWF.1
    · intro r hr
      obtain ⟨r0, hr0, rfl⟩ := List.mem_map.mp hr
      show (spFun uid f r0).id < db.nextId
      rw [spFun_id_eq]
      exact hWF.2 r0 hr0

theorem sp_primaryCount_key (db : DB) (uid : String) (pk : Nat) (f : UploadedFileRec)
    (hWF : db.WF) (hobj : getObject db uid pk = some f) :
    primaryCount (set_primary_final db uid pk) f.listing_type f.listing_id uid ≤ 1 := by
  obtain ⟨hmem, huid, hpk⟩ := getObject_spec db uid pk f hobj
  rw [set_primary_final_found db uid pk f hobj]
  unfold primaryCount
  show ((db.files.map (spFun uid f)).countP _) ≤ 1
  rw [List.countP_map]
  calc (db.files.countP _) ≤ db.files.countP (fun r => r.id == f.id) := by
        apply List.countP_mono_left
        intro r _ hp
        simp only [Function.comp, decide_eq_true_eq] at hp
        by_cases hid : r.id = f.id
        · simpa using hid
        · exfalso
          by_cases hkey : r.listing_type = f.listing_type ∧
              r.listing_id = f.listing_id ∧ r.user_uid = uid
          · rw [spFun_eq_cleared uid f r hid hkey] at hp
            exact Bool.noConfusion hp.2.2.2
          · rw [spFun_eq_same uid f r hid hkey] at hp
            exact hkey ⟨hp.1, hp.2.1, hp.2.2.1⟩
    _ = List.count f.id (db.files.map (·.id)) := by
        rw [List.count, List.countP_map]
        rfl
    _ ≤ 1 := List.nodup_iff_count_le_one.mp hWF.1 f.id

theorem sp_primaryCount_other (db : DB) (uid : String) (pk : Nat)
    (f : UploadedFileRec) (hWF : db.WF) (hobj : getObject db uid pk = some f)
    (l_t l_d u : String)
    (hne : ¬ (f.listing_type = l_t ∧ f.listing_id = l_d ∧ uid = u)) :
    primaryCount (set_primary_final db uid pk) l_t l_d u = primaryCount db l_t l_d u := by
  obtain ⟨hmem, huid, hpk⟩ := getObject_spec db uid pk f hobj
  rw [set_primary_final_found db uid pk f hobj]
  unfold primaryCount
  show ((db.files.map (spFun uid f)).countP _) = _
  rw [List.countP_map]
  apply List.countP_congr
  intro r hr
  simp only [Function.comp, decide_eq_true_eq]
  by_cases hid : r.id = f.id
  · have hrf : r = f := List.inj_on_of_nodup_map hWF.1 hr hmem hid
    subst hrf
    rw [spFun_eq_target uid _ _ rfl]
    constructor
    · rintro ⟨h1, h2, h3, -⟩
      exact absurd ⟨h1, h2, huid.symm.trans h3⟩ hne
    · rintro ⟨h1, h2, h3, -⟩
      exact absurd ⟨h1, h2, huid.symm.trans h3⟩ hne
  · by_cases hkey : r.listing_type = f.listing_type ∧
        r.listing_id = f.listing_id ∧ r.user_uid = uid
    · rw [spFun_eq_cleared uid f r hid hkey]
      constructor
      · rintro ⟨-, -, -, h4⟩
        exact Bool.noConfusion h4
      · rintro ⟨h1, h2, h3, -⟩
        exact absurd ⟨hkey.1.symm.trans h1, hkey.2.1.symm.trans h2,
          hkey.2.2.symm.trans h3⟩ hne
    · rw [spFun_eq_same uid f r hid hkey]

theorem set_primary_final_I1 (db : DB) (uid : String) (pk : Nat)
    (hWF : db.WF) (hI1 : InvariantI1 db) :
    InvariantI1 (set_primary_final db uid pk) := by
  cases hobj : getObject db uid pk with
  | none => rw [set_primary_final_notFound db uid pk hobj]; exact hI1
  | some f =>
    intro l_t l_d u
    by_cases hk : f.listing_type = l_t ∧ f.listing_id = l_d ∧ uid = u
    · obtain ⟨h1, h2, h3⟩ := hk
      subst h1
      subst h2
      subst h3
      exact sp_primaryCount_key db uid pk f hWF hobj
    · rw [sp_primaryCount_other db uid pk f hWF hobj l_t l_d u hk]
      exact hI1 l_t l_d u

theorem applyOp_preserves (cfg : String → Option Nat) (db : DB) (op : Op)
    (hWF : db.WF) (hI1 : InvariantI1 db) (hop : opRequestsPrimary op = false) :
    (applyOp cfg db op).WF ∧ InvariantI1 (applyOp cfg db op) := by
  cases op with
  | createOp uid f lt lid isP =>
    refine ⟨create_WF db uid f lt lid isP none "" cfg hWF, ?_⟩
    intro l_t l_d u
    have hisP : pyLower (isP.getD "false") ≠ "true" := by
      simpa [opRequestsPrimary] using hop
    show primaryCount ((create db uid f lt lid isP none "" cfg).1) l_t l_d u ≤ 1
    rw [create_primaryCount db uid f lt lid isP none "" cfg hWF hisP l_t l_d u]
    exact hI1 l_t l_d u
  | setPrimaryOp uid pk =>
    exact ⟨set_primary_final_WF db uid pk hWF, set_primary_final_I1 db uid pk hWF hI1⟩

theorem runOps_WF_I1 (cfg : String → Option Nat) :
    ∀ (ops : List Op) (db : DB), db.WF → InvariantI1 db →
      (∀ op ∈ ops, opRequestsPrimary op = false) →
      (runOps cfg db ops).WF ∧ InvariantI1 (runOps cfg db ops) := by
  intro ops
  induction ops with
  | nil => exact fun db h1 h2 _ => ⟨h1, h2⟩
  | cons op ops ih =>
    intro db h1 h2 hall
    have hop := hall op (List.mem_cons_self op ops)
    have hstep := applyOp_preserves cfg db op h1 h2 hop
    unfold runOps
    rw [List.foldl_cons]
    exact ih (applyOp cfg db op) hstep.1 hstep.2
      (fun o ho => hall o (List.mem_cons_of_mem op ho))

/-! ## C1: the single-primary invariant -/

/-- C1 (corrected): after any sequence of fully committed Create and
SetPrimary operations **in which no Create explicitly requests
isPrimary=true**, every listing key `(listingType, listingId, ownerUid)` has
at most one `UploadedFile` with `isPrimary = true` (starting from any
well-formed store satisfying the invariant).  The original claim also covered
a Create explicitly requesting `isPrimary=true`; that path does **not** route
through any clearing coordinator in the code — `create` stores the flag
verbatim — and violates the invariant (see the counterexample). -/
theorem C1_single_primary_invariant (cfg : String → Option Nat) (db : DB)
    (ops : List Op) (hWF : db.WF) (hI1 : InvariantI1 db)
    (hops : ∀ op ∈ ops, opRequestsPrimary op = false) :
    InvariantI1 (runOps cfg db ops) :=
  (runOps_WF_I1 cfg ops db hWF hI1 hops).2

/-- Witness for C1: a Create without the flag, a Create with
`is_primary=false`, and a SetPrimary, run from the empty store. -/
theorem C1_witness :
    InvariantI1 (runOps noSizeConfig emptyDB
      [Op.createOp "u" (some (samplePdf "a.pdf" 10)) (some "house") (some "L1") none,
       Op.createOp "u" (some (samplePdf "b.pdf" 10)) (some "house") (some "L1") (some "false"),
       Op.setPrimaryOp "u" 1]) :=
  C1_single_primary_invariant noSizeConfig emptyDB
    [Op.createOp "u" (some (samplePdf "a.pdf" 10)) (some "house") (some "L1") none,
     Op.createOp "u" (some (samplePdf "b.pdf" 10)) (some "house") (some "L1") (some "false"),
     Op.setPrimaryOp "u" 1]
    (by decide)
    (fun lt lid uid => by simp [primaryCount, emptyDB])
    (by decide)

/-- C1 counterexample: two committed Creates that explicitly request
`is_primary=true` for the same listing key leave **two** rows flagged primary
— the claim's "at most one" bound fails because a Create requesting
isPrimary=true writes the flag directly without clearing any existing
primary. -/
theorem C1_counterexample :
    ¬ (primaryCount (runOps noSizeConfig emptyDB
        [Op.createOp "u" (some (samplePdf "a.pdf" 10)) (some "house") (some "L") (some "true"),
         Op.createOp "u" (some (samplePdf "b.pdf" 10)) (some "house") (some "L") (some "true")])
        "house" "L" "u" ≤ 1) := by
  decide

/-! ## C2: primary swap -/

/-- C2 (corrected): for two rows A (primary) and B (not primary) of the same
listing key, `set_primary(B)` does end with A cleared and B primary; but the
view is **not** wrapped in a transaction — the bulk clear and the target save
commit separately — so there is an externally observable intermediate state
(after the first committed statement) in which **neither** file is primary,
contradicting the claimed atomicity. -/
theorem C2_swap_final_and_intermediate (db : DB) (uid : String)
    (A B : UploadedFileRec)
    (hA : A ∈ db.files) (hobj : getObject db uid B.id = some B)
    (hkey : A.listing_type = B.listing_type ∧ A.listing_id = B.listing_id ∧
      A.user_uid = uid)
    (hne : ¬ A.id = B.id) :
    (set_primary db uid B.id).2 = .updated ∧
    { B with is_primary := true } ∈ (set_primary_final db uid B.id).files ∧
    { A with is_primary := false } ∈ (set_primary_final db uid B.id).files ∧
    ∃ mid ∈ (set_primary db uid B.id).1.dropLast,
      { A with is_primary := false } ∈ mid.files ∧
      { B with is_primary := false } ∈ mid.files := by
  obtain ⟨hBmem, hBuid, -⟩ := getObject_spec db uid B.id B hobj
  refine ⟨?_, ?_, ?_, ?_⟩
  · unfold set_primary
    rw [hobj]
  · rw [set_primary_final_found db uid B.id B hobj]
    show _ ∈ db.files.map (spFun uid B)
    have hm := List.mem_map_of_mem (spFun uid B) hBmem
    rwa [spFun_eq_target uid B B rfl] at hm
  · rw [set_primary_final_found db uid B.id B hobj]
    show _ ∈ db.files.map (spFun uid B)
    have hm := List.mem_map_of_mem (spFun uid B) hA
    rwa [spFun_eq_cleared uid B A hne hkey] at hm
  · unfold set_primary
    rw [hobj]
    refine ⟨{ db with files := db.files.map (fun r =>
        if r.listing_type = B.listing_type ∧ r.listing_id = B.listing_id ∧
            r.user_uid = uid then { r with is_primary := false } else r) },
      List.mem_singleton.mpr rfl, ?_, ?_⟩
    · exact List.mem_map.mpr ⟨A, hA, by rw [if_pos hkey]⟩
    · exact List.mem_map.mpr ⟨B, hBmem, by rw [if_pos ⟨rfl, rfl, hBuid⟩]⟩

/-- Witness for C2: the two-row fixture `dbAB` with A = `carRecA` currently
primary and B = `carRecB` the target. -/
theorem C2_witness :
    (set_primary dbAB "u" 2).2 = .updated ∧
    { carRecB with is_primary := true } ∈ (set_primary_final dbAB "u" 2).files ∧
    { carRecA with is_primary := false } ∈ (set_primary_final dbAB "u" 2).files ∧
    ∃ mid ∈ (set_primary dbAB "u" 2).1.dropLast,
      { carRecA with is_primary := false } ∈ mid.files ∧
      { carRecB with is_primary := false } ∈ mid.files := by
  have h := C2_swap_final_and_intermediate dbAB "u" carRecA carRecB
    (by decide) (by decide) (by decide) (by decide)
  simpa using h

/-- C2 counterexample: on the fixture `dbAB` — A primary, B not — the state
committed by the first statement of `set_primary(B)` (the bulk
`update(is_primary=False)`), which is externally observable because the view
runs outside any transaction, has **no** primary row at all: the claimed
"no externally observable state where both or neither are true" is false. -/
theorem C2_counterexample :
    ∃ mid ∈ (set_primary dbAB "u" 2).1.dropLast,
      ∀ r ∈ mid.files, r.is_primary = false := by
  decide

/-! ## C5: ownership enforcement -/

/-- C5 (corrected): when the target of `set_primary` or `destroy` is not owned
by the requester, the operation does fail and changes nothing — but solely
because the lookup queryset is filtered to the requester's rows, which makes
`get_object` raise `Http404`.  There is no explicit first-class `not_owner`
authorization check and no distinct authorization error anywhere in the code:
the failure is a not-found result, indistinguishable from a nonexistent file
(see the counterexample), and no commit occurs. -/
theorem C5_ownership_via_filter (db : DB) (uid : String) (pk : Nat)
    (ip : Option String) (ua : String) (deleteOk : Bool)
    (h : ∀ r ∈ db.files, r.id = pk → r.user_uid ≠ uid) :
    set_primary db uid pk = ([], .notFound) ∧
    destroy db uid pk ip ua deleteOk = ([], .notFound) ∧
    set_primary_final db uid pk = db ∧
    destroy_final db uid pk ip ua deleteOk = db := by
  have hobj := getObject_none db uid pk h
  refine ⟨?_, ?_, set_primary_final_notFound db uid pk hobj, ?_⟩
  · unfold set_primary
    rw [hobj]
  · unfold destroy
    rw [hobj]
  · unfold destroy_final destroy
    rw [hobj]
    rfl

/-- Witness for C5: requester `"bob"` targeting file 1 of `dbAB`, which is
owned by `"u"`. -/
theorem C5_witness :
    set_primary dbAB "bob" 1 = ([], .notFound) ∧
    destroy dbAB "bob" 1 none "" true = ([], .notFound) ∧
    set_primary_final dbAB "bob" 1 = dbAB ∧
    destroy_final dbAB "bob" 1 none "" true = dbAB :=
  C5_ownership_via_filter dbAB "bob" 1 none "" true (by decide)

/-- C5 counterexample: for requester `"bob"`, targeting the existing non-owned
file 1 produces exactly the same observable outcome as targeting the
nonexistent file 99 — a not-found result with no state change.  The claimed
`AuthorizationError` of kind `not_owner`, "enforced as an explicit first-class
check rather than only as a side effect of filtering the lookup query", does
not exist: ownership is enforced only by the owner-filtered queryset. -/
theorem C5_counterexample :
    (set_primary dbAB "bob" 1).2 = .notFound ∧
    (destroy dbAB "bob" 1 none "" true).2 = .notFound ∧
    set_primary dbAB "bob" 99 = set_primary dbAB "bob" 1 ∧
    destroy dbAB "bob" 99 none "" true = destroy dbAB "bob" 1 none "" true ∧
    set_primary_final dbAB "bob" 1 = dbAB ∧
    destroy_final dbAB "bob" 1 none "" true = dbAB := by
  decide

/-! ## C6: listing-field validation -/

/-- C6 (corrected): `create` rejects an absent (or empty, by Python
falsiness) file / listingType / listingId with the single missing-fields 400
before touching any state; but it performs **no** membership check of
listingType against {house, car} and **no** length check on listingId — any
non-empty listingType (e.g. "boat") and a 200-character listingId are accepted
and a record is created with them verbatim.  The `FileUploadSerializer`
declaring those constraints is never invoked by the create path. -/
theorem C6_create_validation :
    (∀ (db : DB) (uid : String) (file : Option FilePayload)
      (lt lid isP ip : Option String) (ua : String) (cfg : String → Option Nat),
      ¬ (pyTruthyFile file ∧ pyTruthyStr lt ∧ pyTruthyStr lid) →
      create db uid file lt lid isP ip ua cfg = (db, .missingFields)) ∧
    (∀ (db : DB) (uid : String) (f : FilePayload) (l_t l_d : String)
      (isP ip : Option String) (ua : String) (cfg : String → Option Nat),
      db.WF → f.name ≠ "" → l_t ≠ "" → l_d ≠ "" →
      f.size ≤ maxSizeFor cfg f → f.dbOk = true →
      ∃ rec, (create db uid (some f) (some l_t) (some l_d) isP ip ua cfg).2 =
          .created rec ∧
        rec.listing_type = l_t ∧ rec.listing_id = l_d) := by
  constructor
  · exact fun db uid file lt lid isP ip ua cfg h =>
      create_missing db uid file lt lid isP ip ua cfg h
  · intro db uid f l_t l_d isP ip ua cfg hWF h1 h2 h3 h4 h5
    obtain ⟨rec, hres, -, -, -, hlt, hlid, -, -⟩ :=
      create_created db uid f l_t l_d isP ip ua cfg hWF h1 h2 h3 h4 h5
    exact ⟨rec, hres, hlt, hlid⟩

/-- Witness for C6: a request with no file is rejected as missing fields; a
complete request for listing `house/L` is accepted. -/
theorem C6_witness :
    create emptyDB "u" none (some "house") (some "L") none none "" noSizeConfig =
      (emptyDB, .missingFields) ∧
    ∃ rec, (create emptyDB "u" (some (samplePdf "a.pdf" 10)) (some "house") (some "L")
        none none "" noSizeConfig).2 = .created rec ∧
      rec.listing_type = "house" ∧ rec.listing_id = "L" :=
  ⟨C6_create_validation.1 emptyDB "u" none (some "house") (some "L") none none ""
    noSizeConfig (by decide),
   C6_create_validation.2 emptyDB "u" (samplePdf "a.pdf" 10) "house" "L" none none ""
    noSizeConfig (by decide) (by decide) (by decide) (by decide) (by decide) (by decide)⟩

/-- C6 counterexample: a Create with `listing_type = "boat"` (not in
{house, car}) and a 200-character `listing_id` succeeds with a 201 and stores
both values verbatim — the claimed `unsupported_listing_type` rejection and
the 128-character bound are not enforced by the create path. -/
theorem C6_counterexample :
    ∃ rec, (create emptyDB "u" (some (samplePdf "a.pdf" 10)) (some "boat")
        (some longListingId) none none "" noSizeConfig).2 = .created rec ∧
      rec.listing_type = "boat" ∧ rec.listing_id = longListingId := by
  obtain ⟨rec, hres, -, -, -, hlt, hlid, -, -⟩ :=
    create_created emptyDB "u" (samplePdf "a.pdf" 10) "boat" longListingId none none ""
      noSizeConfig (by decide) (by decide) (by decide) (by decide) (by decide) (by decide)
  exact ⟨rec, hres, hlt, hlid⟩

/-! ## C7: size-limit enforcement -/

/-- C7 (confirmed): whenever the payload size strictly exceeds the per-type
ceiling — `MAX_UPLOAD_SIZE.get(file_type, 5 * 1024 * 1024)`, i.e. the
configured value for the classified type with a 5 MiB fallback when
unconfigured — `create` returns the file-too-large 400 carrying that limit
and the state is exactly unchanged: no metadata record, no blob, no log
entry. -/
theorem C7_size_limit (db : DB) (uid : String) (f : FilePayload)
    (l_t l_d : String) (isP ip : Option String) (ua : String)
    (cfg : String → Option Nat)
    (hname : f.name ≠ "") (hlt : l_t ≠ "") (hld : l_d ≠ "")
    (hsize : maxSizeFor cfg f < f.size) :
    create db uid (some f) (some l_t) (some l_d) isP ip ua cfg =
      (db, .fileTooLarge (maxSizeFor cfg f)) :=
  create_tooLarge db uid f l_t l_d isP ip ua cfg hname hlt hld hsize

/-- Witness for C7: an image payload of 5 MiB + 1 bytes with no configured
limits is rejected with the default 5 MiB image cap, leaving the empty store
untouched. -/
theorem C7_witness :
    create emptyDB "u" (some bigImage) (some "car") (some "C1") none none ""
      noSizeConfig = (emptyDB, .fileTooLarge (5 * 1024 * 1024)) := by
  have h := C7_size_limit emptyDB "u" bigImage "car" "C1" none none "" noSizeConfig
    (by decide) (by decide) (by decide) (by decide)
  rw [show maxSizeFor noSizeConfig bigImage = 5 * 1024 * 1024 from by decide] at h
  exact h

/-! ## C10: delete completeness and the audit log -/

/-- C10 (corrected): deleting an owned file that has both a primary blob and a
thumbnail blob removes both blobs, removes the metadata record, and appends
exactly one `FileUploadLog` entry with `action = "delete"` and `file_id` equal
to the deleted record's id.  But the log write and the removal are **not** one
atomic unit: `destroy` runs outside any transaction, the log row is committed
by its own earlier statement — observable while the record still exists — and
if the removal step then fails, the log entry persists anyway. -/
theorem C10_delete_completeness (db : DB) (uid : String) (pk : Nat)
    (inst : UploadedFileRec) (ip : Option String) (ua : String) (tl : Nat)
    (hobj : getObject db uid pk = some inst)
    (hnm : inst.file_name ≠ "") (hthumb : inst.thumbLoc = some tl) :
    (destroy db uid pk ip ua true).2 = .noContent ∧
    (destroy_final db uid pk ip ua true).files =
      db.files.filter (fun r => r.id ≠ inst.id) ∧
    inst.fileLoc ∉ (destroy_final db uid pk ip ua true).blobs ∧
    tl ∉ (destroy_final db uid pk ip ua true).blobs ∧
    (destroy_final db uid pk ip ua true).logs = db.logs ++
      [{ user_uid := uid, action := "delete", file_id := some inst.id,
         file_name := inst.file_name, file_size := inst.file_size,
         ip_address := ip, user_agent := ua.take 500 }] ∧
    (destroy db uid pk ip ua true).1.head? = some
      { db with logs := db.logs ++
        [{ user_uid := uid, action := "delete", file_id := some inst.id,
           file_name := inst.file_name, file_size := inst.file_size,
           ip_address := ip, user_agent := ua.take 500 }] } ∧
    destroy_final db uid pk ip ua false =
      { db with logs := db.logs ++
        [{ user_uid := uid, action := "delete", file_id := some inst.id,
           file_name := inst.file_name, file_size := inst.file_size,
           ip_address := ip, user_agent := ua.take 500 }] } ∧
    (destroy db uid pk ip ua false).2 = .dbFailure := by
  unfold destroy_final destroy
  rw [hobj]
  simp only [if_pos hnm, hthumb]
  refine ⟨rfl, rfl, ?_, ?_, rfl, rfl, rfl, rfl⟩
  · show inst.fileLoc ∉ List.filter _ (List.filter _ _)
    simp [List.mem_filter]
  · show tl ∉ List.filter _ (List.filter _ _)
    simp [List.mem_filter]

/-- Witness for C10: deleting `carRecA` (file blob 10, thumbnail blob 11)
from the fixture `dbAB` on behalf of its owner `"u"`. -/
theorem C10_witness :
    (destroy dbAB "u" 1 none "ua" true).2 = .noContent ∧
    (destroy_final dbAB "u" 1 none "ua" true).files =
      dbAB.files.filter (fun r => r.id ≠ carRecA.id) ∧
    carRecA.fileLoc ∉ (destroy_final dbAB "u" 1 none "ua" true).blobs ∧
    11 ∉ (destroy_final dbAB "u" 1 none "ua" true).blobs ∧
    (destroy_final dbAB "u" 1 none "ua" true).logs = dbAB.logs ++
      [{ user_uid := "u", action := "delete", file_id := some carRecA.id,
         file_name := carRecA.file_name, file_size := carRecA.file_size,
         ip_address := none, user_agent := "ua".take 500 }] ∧
    (destroy dbAB "u" 1 none "ua" true).1.head? = some
      { dbAB with logs := dbAB.logs ++
        [{ user_uid := "u", action := "delete", file_id := some carRecA.id,
           file_name := carRecA.file_name, file_size := carRecA.file_size,
           ip_address := none, user_agent := "ua".take 500 }] } ∧
    destroy_final dbAB "u" 1 none "ua" false =
      { dbAB with logs := dbAB.logs ++
        [{ user_uid := "u", action := "delete", file_id := some carRecA.id,
           file_name := carRecA.file_name, file_size := carRecA.file_size,
           ip_address := none, user_agent := "ua".take 500 }] } ∧
    (destroy dbAB "u" 1 none "ua" false).2 = .dbFailure :=
  C10_delete_completeness dbAB "u" 1 carRecA none "ua" 11
    (by decide) (by decide) (by decide)

/-- C10 counterexample: when the removal step raises (modelled by
`deleteOk = false`) after the log statement already committed, the store ends
with the delete-action log entry present while the record and its blob are
untouched — the log write and the blob/metadata removal did **not** commit or
fail together as one unit. -/
theorem C10_counterexample :
    (destroy dbAB "u" 1 none "" false).2 = .dbFailure ∧
    (destroy_final dbAB "u" 1 none "" false).logs.length = dbAB.logs.length + 1 ∧
    carRecA ∈ (destroy_final dbAB "u" 1 none "" false).files ∧
    10 ∈ (destroy_final dbAB "u" 1 none "" false).blobs := by
  decide

/-! ## Helper lemmas: batch upload -/

theorem batchGo_counts (uid : String) (lt lid ip : Option String) (ua : String)
    (cfg : String → Option Nat) :
    ∀ (files : List FilePayload) (db : DB) (index : Nat),
      (batchGo uid lt lid ip ua cfg db index files).2.1.length +
        (batchGo uid lt lid ip ua cfg db index files).2.2.length = files.length := by
  intro files
  induction files with
  | nil => intro db index; rfl
  | cons f fs ih =>
    intro db index
    unfold batchGo
    dsimp only
    generalize create db uid (some f) lt lid
      (some (if index = 0 then "true" else "false")) ip ua cfg = res
    obtain ⟨db1, r⟩ := res
    have h := ih db1 (index + 1)
    cases r <;> (dsimp only; simp only [List.length_cons]; omega)

theorem batchGo_preserves (uid : String) (lt lid ip : Option String) (ua : String)
    (cfg : String → Option Nat) :
    ∀ (files : List FilePayload) (db : DB) (index : Nat), db.WF →
      ((batchGo uid lt lid ip ua cfg db index files).1).WF ∧
      ∀ r ∈ db.files, r ∈ (batchGo uid lt lid ip ua cfg db index files).1.files := by
  intro files
  induction files with
  | nil => exact fun db index hWF => ⟨hWF, fun r hr => hr⟩
  | cons f fs ih =>
    intro db index hWF
    have hWF1 := create_WF db uid (some f) lt lid
      (some (if index = 0 then "true" else "false")) ip ua cfg hWF
    have hmono := create_mono db uid (some f) lt lid
      (some (if index = 0 then "true" else "false")) ip ua cfg hWF
    unfold batchGo
    obtain ⟨hallWF, hall⟩ := ih (create db uid (some f) lt lid
      (some (if index = 0 then "true" else "false")) ip ua cfg).1 (index + 1) hWF1
    cases hr : (create db uid (some f) lt lid
        (some (if index = 0 then "true" else "false")) ip ua cfg).2 <;>
      simp only [hr] <;>
      exact ⟨hallWF, fun r hrr => hall r (hmono r hrr)⟩

theorem batchGo_rest_not_primary (uid : String) (lt lid ip : Option String)
    (ua : String) (cfg : String → Option Nat) :
    ∀ (files : List FilePayload) (db : DB) (index : Nat), db.WF → 1 ≤ index →
      ∀ rec ∈ (batchGo uid lt lid ip ua cfg db index files).2.1,
        rec.is_primary = false := by
  intro files
  induction files with
  | nil => intro db index _ _ rec h; exact absurd h (List.not_mem_nil rec)
  | cons f fs ih =>
    intro db index hWF hidx rec hrec
    have hWF1 := create_WF db uid (some f) lt lid
      (some (if index = 0 then "true" else "false")) ip ua cfg hWF
    have hcases := create_cases db uid (some f) lt lid
      (some (if index = 0 then "true" else "false")) ip ua cfg hWF
    unfold batchGo at hrec
    revert hrec
    cases hr : (create db uid (some f) lt lid
        (some (if index = 0 then "true" else "false")) ip ua cfg).2 <;>
      simp only [hr] <;>
      intro hrec
    case missingFields =>
      exact ih _ (index + 1) hWF1 (by omega) rec hrec
    case fileTooLarge m =>
      exact ih _ (index + 1) hWF1 (by omega) rec hrec
    case dbError nm msg =>
      exact ih _ (index + 1) hWF1 (by omega) rec hrec
    case created rec0 =>
      rcases List.mem_cons.mp hrec with hhead | htail
      · subst hhead
        rcases hcases with ⟨-, hnone⟩ | ⟨rec', hres, -, -, -, -, hprim, -, -⟩
        · exact absurd hr (hnone rec)
        · have : rec = rec' := by
            rw [hr] at hres
            exact ((CreateResult.created.injEq rec' rec).mp hres.symm).symm
          subst this
          rw [hprim]
          have hne : index ≠ 0 := by omega
          simp only [if_neg hne]
          decide
      · exact ih _ (index + 1) hWF1 (by omega) rec htail

/-! ## C3: batch isolation -/

/-- C3 (confirmed): every non-empty batch reports one outcome per submitted
file — `success` counts the per-item 201s, `failed` counts the per-item
errors, and their sum is the number of submitted files, so no item aborts the
loop — and every record already committed before or during the batch survives
in the final store (failures neither abort nor roll back sibling items, each
item running the full single-file `create` pipeline in submission order).
Concretely, the five-file batch whose index-2 file fails the size validation
yields `success = 4`, `failed = 1` with the one error naming `f2.pdf`, and the
4 successful records are retrievable via `by_listing` for that listing. -/
theorem C3_batch_isolation :
    (∀ (db : DB) (uid : String) (files : List FilePayload)
      (lt lid ip : Option String) (ua : String) (cfg : String → Option Nat),
      db.WF → files ≠ [] →
      ∃ r, (batch_upload db uid files lt lid ip ua cfg).2 = .ok r ∧
        r.success = r.results.length ∧ r.failed = r.errors.length ∧
        r.success + r.failed = files.length ∧
        ∀ old ∈ db.files, old ∈ (batch_upload db uid files lt lid ip ua cfg).1.files) ∧
    (batch_upload emptyDB "u" batchFive (some "house") (some "L7") none ""
        noSizeConfig).2.toOption.map (fun r => (r.success, r.failed, r.errors)) =
      some (4, 1, [tooLargeErr]) ∧
    (by_listing (batch_upload emptyDB "u" batchFive (some "house") (some "L7") none ""
        noSizeConfig).1 (some "house") (some "L7")).toOption.map
        (fun l => l.map (fun r => (r.id, r.file_size, r.is_primary))) =
      some [(0, 100, true), (3, 100, false), (2, 100, false), (1, 100, false)] := by
  refine ⟨?_, by decide, by decide⟩
  intro db uid files lt lid ip ua cfg hWF hne
  unfold batch_upload
  rw [if_neg hne]
  exact ⟨_, rfl, rfl, rfl, batchGo_counts uid lt lid ip ua cfg files db 0,
    (batchGo_preserves uid lt lid ip ua cfg files db 0 hWF).2⟩

/-- Witness for C3: the universally quantified clause applied to the five-file
fixture batch from the empty store. -/
theorem C3_witness :
    ∃ r, (batch_upload emptyDB "u" batchFive (some "house") (some "L7") none ""
        noSizeConfig).2 = .ok r ∧
      r.success = r.results.length ∧ r.failed = r.errors.length ∧
      r.success + r.failed = batchFive.length ∧
      ∀ old ∈ emptyDB.files, old ∈ (batch_upload emptyDB "u" batchFive (some "house")
        (some "L7") none "" noSizeConfig).1.files :=
  C3_batch_isolation.1 emptyDB "u" batchFive (some "house") (some "L7") none ""
    noSizeConfig (by decide) (by decide)

/-! ## C4: batch primary policy -/

/-- C4 (corrected): in a batch, the file at submission index 0 — when it
completes successfully — is created with `isPrimary = true` **unconditionally**
(it is the only batch item submitted with `is_primary='true'`; all later items
are created non-primary), and the batch performs **no** existing-primary
check: every pre-existing row, including a current primary of the same
listing key owned by the same user, is left untouched with its flag intact.
The claimed "no primary-flag change when the listing already has a primary
owned by the same user" does not exist in the code, so such a batch ends with
two primary files (see the counterexample). -/
theorem C4_batch_primary_policy (db : DB) (uid : String) (f : FilePayload)
    (fs : List FilePayload) (l_t l_d : String) (ip : Option String) (ua : String)
    (cfg : String → Option Nat) (hWF : db.WF)
    (hname : f.name ≠ "") (hlt : l_t ≠ "") (hld : l_d ≠ "")
    (hsize : f.size ≤ maxSizeFor cfg f) (hdb : f.dbOk = true) :
    ∃ r rec,
      (batch_upload db uid (f :: fs) (some l_t) (some l_d) ip ua cfg).2 = .ok r ∧
      r.results.head? = some rec ∧ rec.is_primary = true ∧
      (∀ other ∈ r.results.tail, other.is_primary = false) ∧
      (∀ old ∈ db.files, old ∈ (batch_upload db uid (f :: fs) (some l_t) (some l_d)
        ip ua cfg).1.files) := by
  obtain ⟨rec, hres, hfiles, hid, huid, hltr, hlidr, hprim, hsizer⟩ :=
    create_created db uid f l_t l_d (some "true") ip ua cfg hWF hname hlt hld hsize hdb
  have hWF1 := create_WF db uid (some f) (some l_t) (some l_d) (some "true") ip ua cfg hWF
  have hmono := create_mono db uid (some f) (some l_t) (some l_d) (some "true") ip ua cfg hWF
  unfold batch_upload
  rw [if_neg (by simp)]
  unfold batchGo
  dsimp only
  rw [show (if (0 : Nat) = 0 then "true" else "false") = "true" from rfl]
  rw [hres]
  dsimp only
  refine ⟨_, rec, rfl, rfl, ?_, ?_, ?_⟩
  · rw [hprim]
    decide
  · exact batchGo_rest_not_primary uid (some l_t) (some l_d) ip ua cfg fs _ 1 hWF1
      (by omega)
  · intro old hold
    exact (batchGo_preserves uid (some l_t) (some l_d) ip ua cfg fs _ 1 hWF1).2 old
      (hmono old hold)

/-- Witness for C4: a single-file batch by `"u"` into listing `car/C9` on the
fixture `dbAB`, whose `carRecA` is already the primary of that key for the
same user. -/
theorem C4_witness :
    ∃ r rec,
      (batch_upload dbAB "u" (samplePdf "n.pdf" 10 :: []) (some "car") (some "C9")
        none "" noSizeConfig).2 = .ok r ∧
      r.results.head? = some rec ∧ rec.is_primary = true ∧
      (∀ other ∈ r.results.tail, other.is_primary = false) ∧
      (∀ old ∈ dbAB.files, old ∈ (batch_upload dbAB "u" (samplePdf "n.pdf" 10 :: [])
        (some "car") (some "C9") none "" noSizeConfig).1.files) :=
  C4_batch_primary_policy dbAB "u" (samplePdf "n.pdf" 10) [] "car" "C9" none ""
    noSizeConfig (by decide) (by decide) (by decide) (by decide) (by decide) (by decide)

/-- C4 counterexample: `dbAB`'s listing `car/C9` already has a primary
(`carRecA`) owned by `"u"`, yet a batch by the same user still creates its
index-0 file with `isPrimary = true` — a primary-flag change **is** made —
leaving the key with two primary files.  This refutes "the batch makes no
primary-flag change at all" for that case. -/
theorem C4_counterexample :
    (batch_upload dbAB "u" [samplePdf "n.pdf" 10] (some "car") (some "C9")
        none "" noSizeConfig).2.toOption.map
        (fun r => r.results.map (fun rec => rec.is_primary)) = some [true] ∧
    primaryCount (batch_upload dbAB "u" [samplePdf "n.pdf" 10] (some "car")
        (some "C9") none "" noSizeConfig).1 "car" "C9" "u" = 2 := by
  decide

end FindCarHome
